import Mathlib

/-!
Shallow embedding of the bounding-volume geometry kernel of the geom
repository (math.go and the geometry source in src/unnamed/part_001).

Modelling conventions:
* float32 scalars are modelled as exact rationals; every arithmetic
  expression is transcribed literally from the source.
* The linear-algebra provider (mgl32) supplies Add, Sub, Mul, Dot, Cross,
  Normalize, Quat.Rotate and QuatIdent; these are transcribed from the
  provider formulas the source calls (Rotate is
  v + 2w (qv x v) + 2 qv x (qv x v), Normalize is v * (1 / sqrt (v.v))).
* The provider square root is not rational, so every definition that
  needs it takes an explicit parameter s : Q -> Q standing for sqrt;
  concrete evaluations instantiate s on inputs where the square root is
  exact and state the instantiation explicitly.
* Division by zero cannot be modelled bit-exactly (floats give infinities);
  the source guards its divisions with nonzero, and all concrete inputs
  used below avoid the unguarded zero-divisor paths of OBB.Raycast.
-/

namespace Geom

/-- Source math.go max: the maximum of a or b (source name max). -/
def fmax (a b : ℚ) : ℚ := if a > b then a else b

/-- Source math.go min: the minimum of a or b (source name min). -/
def fmin (a b : ℚ) : ℚ := if a < b then a else b

/-- Source math.go abs (source name abs); the x = 0 case returns 0 exactly
as the source does for negative zero. -/
def fabs (x : ℚ) : ℚ := if x < 0 then -x else if x = 0 then 0 else x

/-- Source math.go cmp: approximate float equality with absolute
threshold 0.005 and relative threshold 1e-5. -/
def cmp (a b : ℚ) : Bool :=
  let maxDiff : ℚ := 5 / 1000
  let maxRelDiff : ℚ := 1 / 100000
  let diff := fabs (a - b)
  if diff ≤ maxDiff then true
  else
    let a2 := fabs a
    let b2 := fabs b
    let largest := fmax a2 b2
    if diff ≤ largest * maxRelDiff then true else false

/-- math.SmallestNonzeroFloat32, the value nonzero substitutes for 0. -/
def smallestNonzeroFloat32 : ℚ := 1 / 2 ^ 149

/-- math.MaxFloat32, the initial minimum-overlap accumulator of MTVAABB. -/
def maxFloat32 : ℚ := (2 ^ 24 - 1) * 2 ^ 104

/-- Source math.go nonzero: v if non-zero, otherwise a small number close
to zero.  The source takes copysign(SmallestNonzeroFloat32, v); rationals
carry no signed zero and the zero reaching this guard in the modelled
paths is the positive literal zero, whose copysign is positive. -/
def nonzero (v : ℚ) : ℚ := if v ≠ 0 then v else smallestNonzeroFloat32

/-- mgl32.Vec3 with exact rational components; component i of the source
is field x/y/z here. -/
structure Vec3 where
  x : ℚ
  y : ℚ
  z : ℚ
  deriving DecidableEq, Repr

/-- Point3 is an alias of Vec3 in the source. -/
abbrev Point3 := Vec3

def zero3 : Vec3 := ⟨0, 0, 0⟩

/-- mgl32 element-wise vector addition. -/
def Vec3.Add (a b : Vec3) : Vec3 := ⟨a.x + b.x, a.y + b.y, a.z + b.z⟩

/-- mgl32 element-wise vector subtraction. -/
def Vec3.Sub (a b : Vec3) : Vec3 := ⟨a.x - b.x, a.y - b.y, a.z - b.z⟩

/-- mgl32 scalar multiplication. -/
def Vec3.Mul (a : Vec3) (c : ℚ) : Vec3 := ⟨a.x * c, a.y * c, a.z * c⟩

/-- mgl32 dot product. -/
def Vec3.Dot (a b : Vec3) : ℚ := a.x * b.x + a.y * b.y + a.z * b.z

/-- mgl32 cross product. -/
def Vec3.Cross (a b : Vec3) : Vec3 :=
  ⟨a.y * b.z - a.z * b.y, a.z * b.x - a.x * b.z, a.x * b.y - a.y * b.x⟩

/-- mgl32 Normalize: v * (1 / v.Len()) with Len v = sqrt (v.Dot v); the
square root is the explicit parameter s. -/
def Vec3.Normalize (v : Vec3) (s : ℚ → ℚ) : Vec3 := v.Mul (1 / s (v.Dot v))

/-- X3, the x axis (source variable X3). -/
def X3 : Vec3 := ⟨1, 0, 0⟩

/-- Y3, the y axis (source variable Y3). -/
def Y3 : Vec3 := ⟨0, 1, 0⟩

/-- Z3, the z axis (source variable Z3). -/
def Z3 : Vec3 := ⟨0, 0, 1⟩

/-- mgl32.Quat: scalar part w and vector part v. -/
structure Quat where
  w : ℚ
  v : Vec3
  deriving DecidableEq, Repr

/-- mgl32.QuatIdent: the identity quaternion. -/
def QuatIdent : Quat := ⟨1, zero3⟩

/-- mgl32 Quat.Rotate: v + 2*q.W*(q.V x v) + 2*q.V x (q.V x v). -/
def Quat.Rotate (q : Quat) (p : Vec3) : Vec3 :=
  let cross := q.v.Cross p
  (p.Add (cross.Mul (2 * q.w))).Add ((q.v.Mul 2).Cross cross)

/-- Source Interval: a 1-D range with Min and Max. -/
structure Interval where
  Min : ℚ
  Max : ℚ
  deriving DecidableEq, Repr

/-- Source Interval.Overlaps: (i2.Min <= i.Max) && (i.Min <= i2.Max). -/
def Interval.Overlaps (i i2 : Interval) : Bool :=
  decide (i2.Min ≤ i.Max) && decide (i.Min ≤ i2.Max)

/-- Source Interval.GetOverlap: the amount of overlap between two
intervals, zero when they do not overlap. -/
def Interval.GetOverlap (i i2 : Interval) : ℚ :=
  if i.Overlaps i2 then fmin i.Max i2.Max - fmax i.Min i2.Min else 0

/-- Source Ray3. -/
structure Ray3 where
  Origin : Point3
  Direction : Vec3
  deriving DecidableEq, Repr

/-- Source Ray3.Point: the point at distance d from the ray origin. -/
def Ray3.Point (r : Ray3) (d : ℚ) : Point3 := r.Origin.Add (r.Direction.Mul d)

/-- Source RaycastFail enumeration (RaycastFailUnknown is the zero value). -/
inductive RaycastFail where
  | Unknown
  | OutsideBounds
  | TargetBehindRayOrigin
  | PlaneFacesAwayFromRay
  deriving DecidableEq, Repr

/-- Source RaycastResult. -/
structure RaycastResult where
  Point : Point3
  Normal : Vec3
  Distance : ℚ
  Fail : RaycastFail
  deriving DecidableEq, Repr

/-- A zero-valued RaycastResult with the given failure reason: the source
declares var res RaycastResult (all fields zero) and sets res.Fail before
returning on a failed raycast. -/
def failResult (f : RaycastFail) : RaycastResult := ⟨zero3, zero3, 0, f⟩

/-- Source Box3 interface restricted to the members IntersectsBox3 uses:
Axes and ProjectOntoAxis. -/
structure Box3 where
  Axes : List Vec3
  ProjectOntoAxis : Vec3 → Interval

/-- Source OverlapOnAxis: projects a and b onto the axis and tests if the
projections overlap. -/
def OverlapOnAxis (a b : Box3) (axis : Vec3) : Bool :=
  (a.ProjectOntoAxis axis).Overlaps (b.ProjectOntoAxis axis)

/-- First loop of source IntersectsBox3:
for j := 0; j < len(axesb); j++ testing OverlapOnAxis(a, b, axesb[j]).
The remaining-iterations counter n equals len(axesb) - j, so the
recursion runs the loop exactly as the source does. -/
def axisLoopB (a b : Box3) (axesb : List Vec3) : ℕ → ℕ → Bool
  | 0, _ => true
  | n + 1, j =>
    if OverlapOnAxis a b (axesb.getD j zero3) then axisLoopB a b axesb n (j + 1)
    else false

/-- Inner loop of source IntersectsBox3:
for j := 0; i < len(axesb); i++ testing
OverlapOnAxis(a, b, axesb[j].Cross(axesa[i])).
The loop header is transcribed as written in the source: the condition
and the increment use the OUTER index i while j stays fixed at 0, so the
tested axis is axesb[0].Cross(axesa[i]).  The result is the loop outcome
together with the number of iterations executed (the amount by which the
shared index i advanced); the fuel argument equals len(axesb) - i at
entry, which bounds the iteration count exactly. -/
def crossLoop (a b : Box3) (axesa axesb : List Vec3) : ℕ → ℕ → Bool × ℕ
  | 0, _ => (true, 0)
  | n + 1, i =>
    if i < axesb.length then
      if OverlapOnAxis a b ((axesb.getD 0 zero3).Cross (axesa.getD i zero3)) then
        let r := crossLoop a b axesa axesb n (i + 1)
        (r.1, r.2 + 1)
      else (false, 0)
    else (true, 0)

/-- Outer loop of source IntersectsBox3:
for i := 0; i < len(axesa); i++ testing OverlapOnAxis(a, b, axesa[i]) and
then running the inner cross-product loop, which advances the shared
index i further.  The loop condition i < len(axesa) is the condition of
the source; the extra fuel argument only bounds the iteration count.
Every iteration advances i by at least one, so with the initial fuel
len(axesa) and initial index 0 the fuel can reach zero only once
i >= len(axesa), where the source loop exits with true as well. -/
def axisLoopA (a b : Box3) (axesa axesb : List Vec3) : ℕ → ℕ → Bool
  | 0, _ => true
  | n + 1, i =>
    if i < axesa.length then
      if OverlapOnAxis a b (axesa.getD i zero3) then
        let r := crossLoop a b axesa axesb (axesb.length - i) i
        if r.1 then axisLoopA a b axesa axesb n (i + r.2 + 1)
        else false
      else false
    else true

/-- Source IntersectsBox3: the Separating Axis Theorem test as written in
the source, composed of the three loops above. -/
def IntersectsBox3 (a b : Box3) : Bool :=
  let axesa := a.Axes
  let axesb := b.Axes
  if axisLoopB a b axesb axesb.length 0 then
    axisLoopA a b axesa axesb axesa.length 0
  else false

/-- All cross products of an axis of as with an axis of bs. -/
def crossAxes (as bs : List Vec3) : List Vec3 :=
  as.foldr (fun u acc => (bs.map (fun v => u.Cross v)) ++ acc) []

/-- The 15 candidate separating axes of the Separating Axis Theorem for
two 3-D boxes as the specification describes them: the face-normal axes
of a, the face-normal axes of b, and all pairwise cross products. -/
def satAxes15 (a b : Box3) : List Vec3 :=
  a.Axes ++ b.Axes ++ crossAxes a.Axes b.Axes

/-- Source aabbAxes: the three world axes shared by every AABB. -/
def aabbAxes : List Vec3 := [X3, Y3, Z3]

/-- Source aabbNormals: the six outward AABB face normals. -/
def aabbNormals : List Vec3 :=
  [⟨-1, 0, 0⟩, ⟨1, 0, 0⟩, ⟨0, -1, 0⟩, ⟨0, 1, 0⟩, ⟨0, 0, -1⟩, ⟨0, 0, 1⟩]

/-- Source AABB: position and HALF size.  The private corners field is a
pre-allocated scratch array, zero-valued on a freshly constructed value
(the lifecycle the repository uses); it is not part of the value model
and its zero initial contents are accounted for in AABB.Corners. -/
structure AABB where
  Position : Point3
  Size : Vec3
  deriving DecidableEq, Repr

/-- Source AABB.Min: component-wise minimum of position + size and
position - size. -/
def AABB.Min (a : AABB) : Point3 :=
  let p1 := a.Position.Add a.Size
  let p2 := a.Position.Sub a.Size
  ⟨fmin p1.x p2.x, fmin p1.y p2.y, fmin p1.z p2.z⟩

/-- Source AABB.Max: component-wise maximum of position + size and
position - size. -/
def AABB.Max (a : AABB) : Point3 :=
  let p1 := a.Position.Add a.Size
  let p2 := a.Position.Sub a.Size
  ⟨fmax p1.x p2.x, fmax p1.y p2.y, fmax p1.z p2.z⟩

/-- Source AABB.Corners.  The source computes the eight corner points but
assigns every one of them to a.corners[0]; the last assignment
(max.x, min.y, min.z) wins and the remaining seven slots keep the zero
value of the freshly allocated scratch array, so the returned slice is
that single corner followed by seven zero vectors. -/
def AABB.Corners (a : AABB) : List Point3 :=
  let mn := a.Min
  let mx := a.Max
  [⟨mx.x, mn.y, mn.z⟩, zero3, zero3, zero3, zero3, zero3, zero3, zero3]

/-- Source AABB.Axes: the shared world axes. -/
def AABB.Axes (_ : AABB) : List Vec3 := aabbAxes

/-- Source AABB.Normals: the shared outward normals. -/
def AABB.Normals (_ : AABB) : List Vec3 := aabbNormals

/-- Source AABB.ContainsPoint3: inclusive min/max range test. -/
def AABB.ContainsPoint3 (a : AABB) (pt : Point3) : Bool :=
  let mn := a.Min
  let mx := a.Max
  if pt.x < mn.x ∨ pt.y < mn.y ∨ pt.z < mn.z then false
  else if pt.x > mx.x ∨ pt.y > mx.y ∨ pt.z > mx.z then false
  else true

/-- Source AABB.IntersectsAABB: direct per-axis min/max interval
comparison on all three axes. -/
def AABB.IntersectsAABB (a b : AABB) : Bool :=
  let aMin := a.Min
  let aMax := a.Max
  let bMin := b.Min
  let bMax := b.Max
  decide (aMin.x ≤ bMax.x ∧ aMax.x ≥ bMin.x) &&
  decide (aMin.y ≤ bMax.y ∧ aMax.y ≥ bMin.y) &&
  decide (aMin.z ≤ bMax.z ∧ aMax.z ≥ bMin.z)

/-- One iteration of the axis loop of source MTVAABB over the state
(minOverlap, axis, sign): when this axis has strictly smaller overlap it
becomes the separation axis and the sign is -1 when a is below b on it,
exactly as each case of the source switch does. -/
def mtvStep (st : ℚ × Vec3 × ℚ) (aint bint : Interval) (axv : Vec3)
    (apos bpos : ℚ) : ℚ × Vec3 × ℚ :=
  let overlap := aint.GetOverlap bint
  if overlap < st.1 then (overlap, axv, if apos < bpos then -1 else 1) else st

/-- Source AABB.MTVAABB: minimum translation vector for an overlapping
AABB, the three loop iterations unrolled in order i = 0, 1, 2. -/
def AABB.MTVAABB (a b : AABB) : Bool × Vec3 :=
  let aMin := a.Min
  let aMax := a.Max
  let bMin := b.Min
  let bMax := b.Max
  if ¬((aMin.x ≤ bMax.x ∧ aMax.x ≥ bMin.x) ∧
       (aMin.y ≤ bMax.y ∧ aMax.y ≥ bMin.y) ∧
       (aMin.z ≤ bMax.z ∧ aMax.z ≥ bMin.z)) then (false, zero3)
  else
    let st0 : ℚ × Vec3 × ℚ := (maxFloat32, zero3, 1)
    let st1 := mtvStep st0 ⟨aMin.x, aMax.x⟩ ⟨bMin.x, bMax.x⟩ X3 a.Position.x b.Position.x
    let st2 := mtvStep st1 ⟨aMin.y, aMax.y⟩ ⟨bMin.y, bMax.y⟩ Y3 a.Position.y b.Position.y
    let st3 := mtvStep st2 ⟨aMin.z, aMax.z⟩ ⟨bMin.z, bMax.z⟩ Z3 a.Position.z b.Position.z
    if st3.1 ≤ 0 then (false, zero3)
    else (true, st3.2.1.Mul (st3.2.2 * st3.1))

/-- One iteration of the corner-projection loop shared by
AABB.ProjectOntoAxis and OBB.ProjectOntoAxis: widen the interval with the
projection of one more vertex. -/
def projectStep (axis : Vec3) (acc : Interval) (p : Point3) : Interval :=
  let projection := axis.Dot p
  ⟨if projection < acc.Min then projection else acc.Min,
   if projection > acc.Max then projection else acc.Max⟩

/-- The corner-projection fold shared by AABB.ProjectOntoAxis and
OBB.ProjectOntoAxis: start from the dot product with vertex[0] and widen
with each further vertex.  The empty case cannot arise in the source
(corner lists always have eight entries). -/
def projectList (axis : Vec3) : List Point3 → Interval
  | [] => ⟨0, 0⟩
  | v :: rest => rest.foldl (projectStep axis) ⟨axis.Dot v, axis.Dot v⟩

/-- Source AABB.ProjectOntoAxis: min/max of the dot products of the axis
with the slots of the Corners slice. -/
def AABB.ProjectOntoAxis (a : AABB) (axis : Vec3) : Interval :=
  projectList axis a.Corners

/-- Source slab distances t[0]..t[5] of AABB.Raycast, each direction
component guarded by nonzero. -/
def AABB.raycastT (a : AABB) (ray : Ray3) : List ℚ :=
  let amin := a.Min
  let amax := a.Max
  [(amin.x - ray.Origin.x) / nonzero ray.Direction.x,
   (amax.x - ray.Origin.x) / nonzero ray.Direction.x,
   (amin.y - ray.Origin.y) / nonzero ray.Direction.y,
   (amax.y - ray.Origin.y) / nonzero ray.Direction.y,
   (amin.z - ray.Origin.z) / nonzero ray.Direction.z,
   (amax.z - ray.Origin.z) / nonzero ray.Direction.z]

/-- Source tmin of AABB.Raycast: the largest per-axis slab entry. -/
def AABB.raycastTmin (a : AABB) (ray : Ray3) : ℚ :=
  let t := a.raycastT ray
  fmax (fmax (fmin (t.getD 0 0) (t.getD 1 0)) (fmin (t.getD 2 0) (t.getD 3 0)))
    (fmin (t.getD 4 0) (t.getD 5 0))

/-- Source tmax of AABB.Raycast: the smallest per-axis slab exit. -/
def AABB.raycastTmax (a : AABB) (ray : Ray3) : ℚ :=
  let t := a.raycastT ray
  fmin (fmin (fmax (t.getD 0 0) (t.getD 1 0)) (fmax (t.getD 2 0) (t.getD 3 0)))
    (fmax (t.getD 4 0) (t.getD 5 0))

/-- Source AABB.Raycast: the slab method, with the closest-side loop
realised as a fold in which a later approximate match overwrites an
earlier one, exactly as the source loop does. -/
def AABB.Raycast (a : AABB) (ray : Ray3) : RaycastResult × Bool :=
  let t := a.raycastT ray
  let tmin := a.raycastTmin ray
  let tmax := a.raycastTmax ray
  if tmax < 0 then (failResult RaycastFail.TargetBehindRayOrigin, false)
  else if tmin > tmax then (failResult RaycastFail.OutsideBounds, false)
  else
    let distance := if tmin < 0 then tmax else tmin
    let point := ray.Point distance
    let normals : List Vec3 :=
      [⟨-1, 0, 0⟩, ⟨1, 0, 0⟩, ⟨0, -1, 0⟩, ⟨0, 1, 0⟩, ⟨0, 0, -1⟩, ⟨0, 0, 1⟩]
    let normal :=
      (t.zip normals).foldl (fun acc q => if cmp distance q.1 then q.2 else acc) zero3
  ({ Point := point, Normal := normal, Distance := distance,
     Fail := RaycastFail.Unknown }, true)

/-- The Box3 view of an AABB: the interface members IntersectsBox3 uses. -/
def AABB.toBox3 (a : AABB) : Box3 :=
  ⟨a.Axes, a.ProjectOntoAxis⟩

/-- Source Plane3. -/
structure Plane3 where
  Normal : Vec3
  Distance : ℚ
  deriving DecidableEq, Repr

/-- Source Plane3.Raycast; s is the provider square root used by the
Normalize call on the success path. -/
def Plane3.Raycast (s : ℚ → ℚ) (p : Plane3) (ray : Ray3) :
    RaycastResult × Bool :=
  let nd := ray.Direction.Dot p.Normal
  let pn := ray.Origin.Dot p.Normal
  if nd ≥ 0 then (failResult RaycastFail.PlaneFacesAwayFromRay, false)
  else
    let t := -(p.Distance + pn) / nd
    if t ≥ 0 then
      ({ Point := ray.Origin.Add (ray.Direction.Mul t),
         Normal := p.Normal.Normalize s,
         Distance := t,
         Fail := RaycastFail.Unknown }, true)
    else (failResult RaycastFail.TargetBehindRayOrigin, false)

/-- Source Sphere. -/
structure Sphere where
  Position : Point3
  Radius : ℚ
  deriving DecidableEq, Repr

/-- The source local e of Sphere.Raycast: the offset from the ray origin
to the sphere centre. -/
def Sphere.rayE (sp : Sphere) (ray : Ray3) : Vec3 := sp.Position.Sub ray.Origin

/-- The source local a of Sphere.Raycast: the projection of that offset
onto the ray direction. -/
def Sphere.rayA (sp : Sphere) (ray : Ray3) : ℚ :=
  (sp.rayE ray).Dot ray.Direction

/-- The source local bSquared of Sphere.Raycast. -/
def Sphere.rayBSq (sp : Sphere) (ray : Ray3) : ℚ :=
  (sp.rayE ray).Dot (sp.rayE ray) - sp.rayA ray * sp.rayA ray

/-- Source Sphere.Raycast; s is the provider square root.  The source
initialises t to a - f and overwrites it with a + f when the ray starts
inside the sphere. -/
def Sphere.Raycast (s : ℚ → ℚ) (sp : Sphere) (ray : Ray3) :
    RaycastResult × Bool :=
  let rSquared := sp.Radius * sp.Radius
  let eMagnitudeSquared := (sp.rayE ray).Dot (sp.rayE ray)
  let a := sp.rayA ray
  let bSquared := sp.rayBSq ray
  let f := s (fabs (rSquared - bSquared))
  if rSquared - bSquared < 0 then (failResult RaycastFail.OutsideBounds, false)
  else
    let t := if eMagnitudeSquared < rSquared then a + f else a - f
    let point := ray.Origin.Add (ray.Direction.Mul t)
    ({ Point := point,
       Normal := (point.Sub sp.Position).Normalize s,
       Distance := t,
       Fail := RaycastFail.Unknown }, true)

/-- Source OBB: position, HALF size and orientation quaternion; as with
AABB the private scratch arrays are not part of the value model. -/
structure OBB where
  Position : Point3
  Size : Vec3
  Orientation : Quat
  deriving DecidableEq, Repr

/-- Source OBB.Axes: fast path to the AABB axes at identity orientation,
otherwise the rotated (and normalized) world axes; s is the provider
square root used by Normalize. -/
def OBB.Axes (s : ℚ → ℚ) (o : OBB) : List Vec3 :=
  if o.Orientation = QuatIdent then AABB.Axes ⟨o.Position, o.Size⟩
  else
    [(o.Orientation.Rotate X3).Normalize s,
     (o.Orientation.Rotate Y3).Normalize s,
     (o.Orientation.Rotate Z3).Normalize s]

/-- Source OBB.Corners: fast path to AABB.Corners at identity
orientation, otherwise the source rotates each whole corner point
position +- size by the orientation. -/
def OBB.Corners (o : OBB) : List Point3 :=
  if o.Orientation = QuatIdent then AABB.Corners ⟨o.Position, o.Size⟩
  else
    [o.Orientation.Rotate ⟨o.Position.x + o.Size.x, o.Position.y + o.Size.y, o.Position.z + o.Size.z⟩,
     o.Orientation.Rotate ⟨o.Position.x + o.Size.x, o.Position.y + o.Size.y, o.Position.z - o.Size.z⟩,
     o.Orientation.Rotate ⟨o.Position.x + o.Size.x, o.Position.y - o.Size.y, o.Position.z + o.Size.z⟩,
     o.Orientation.Rotate ⟨o.Position.x + o.Size.x, o.Position.y - o.Size.y, o.Position.z - o.Size.z⟩,
     o.Orientation.Rotate ⟨o.Position.x - o.Size.x, o.Position.y + o.Size.y, o.Position.z + o.Size.z⟩,
     o.Orientation.Rotate ⟨o.Position.x - o.Size.x, o.Position.y + o.Size.y, o.Position.z - o.Size.z⟩,
     o.Orientation.Rotate ⟨o.Position.x - o.Size.x, o.Position.y - o.Size.y, o.Position.z + o.Size.z⟩,
     o.Orientation.Rotate ⟨o.Position.x - o.Size.x, o.Position.y - o.Size.y, o.Position.z - o.Size.z⟩]

/-- Source OBB.Normals: fast path to the AABB normals at identity
orientation, otherwise the rotated (and normalized) face normals. -/
def OBB.Normals (s : ℚ → ℚ) (o : OBB) : List Vec3 :=
  if o.Orientation = QuatIdent then AABB.Normals ⟨o.Position, o.Size⟩
  else
    [(o.Orientation.Rotate ⟨-1, 0, 0⟩).Normalize s,
     (o.Orientation.Rotate ⟨1, 0, 0⟩).Normalize s,
     (o.Orientation.Rotate ⟨0, -1, 0⟩).Normalize s,
     (o.Orientation.Rotate ⟨0, 1, 0⟩).Normalize s,
     (o.Orientation.Rotate ⟨0, 0, -1⟩).Normalize s,
     (o.Orientation.Rotate ⟨0, 0, 1⟩).Normalize s]

/-- Source OBB.ProjectOntoAxis: fast path to AABB.ProjectOntoAxis at
identity orientation, otherwise the same min/max fold over the OBB
corners. -/
def OBB.ProjectOntoAxis (_s : ℚ → ℚ) (o : OBB) (axis : Vec3) : Interval :=
  if o.Orientation = QuatIdent then AABB.ProjectOntoAxis ⟨o.Position, o.Size⟩ axis
  else projectList axis o.Corners

/-- Source OBB.ContainsPoint3: fast path to AABB.ContainsPoint3 at
identity orientation, otherwise the per-axis projection test with early
returns, unrolled in order i = 0, 1, 2. -/
def OBB.ContainsPoint3 (s : ℚ → ℚ) (o : OBB) (pt : Point3) : Bool :=
  if o.Orientation = QuatIdent then AABB.ContainsPoint3 ⟨o.Position, o.Size⟩ pt
  else
    let dir := pt.Sub o.Position
    let axes := o.Axes s
    let d0 := dir.Dot (axes.getD 0 zero3)
    if d0 > o.Size.x then false
    else if d0 < -o.Size.x then false
    else
      let d1 := dir.Dot (axes.getD 1 zero3)
      if d1 > o.Size.y then false
      else if d1 < -o.Size.y then false
      else
        let d2 := dir.Dot (axes.getD 2 zero3)
        if d2 > o.Size.z then false
        else if d2 < -o.Size.z then false
        else true

/-- Source OBB.Raycast: the slab method in the local axes of the box.
The source mutates f[i] in an if / else-if chain before computing the
slab distances; the common continuation is the local function rest,
called with the possibly adjusted components exactly as the source falls
through. -/
def OBB.Raycast (s : ℚ → ℚ) (o : OBB) (ray : Ray3) : RaycastResult × Bool :=
  let axes := o.Axes s
  let a0 := axes.getD 0 zero3
  let a1 := axes.getD 1 zero3
  let a2 := axes.getD 2 zero3
  let f0 := a0.Dot ray.Direction
  let f1 := a1.Dot ray.Direction
  let f2 := a2.Dot ray.Direction
  let p := o.Position.Sub ray.Origin
  let e0 := a0.Dot p
  let e1 := a1.Dot p
  let e2 := a2.Dot p
  let rest : ℚ → ℚ → ℚ → RaycastResult × Bool := fun f0 f1 f2 =>
    let t0 := (e0 + o.Size.x) / f0
    let t1 := (e0 - o.Size.x) / f0
    let t2 := (e1 + o.Size.y) / f1
    let t3 := (e1 - o.Size.y) / f1
    let t4 := (e2 + o.Size.z) / f2
    let t5 := (e2 - o.Size.z) / f2
    let tmin := fmax (fmax (fmin t0 t1) (fmin t2 t3)) (fmin t4 t5)
    let tmax := fmin (fmin (fmax t0 t1) (fmax t2 t3)) (fmax t4 t5)
    if tmax < 0 then (failResult RaycastFail.TargetBehindRayOrigin, false)
    else if tmin > tmax then (failResult RaycastFail.OutsideBounds, false)
    else
      let distance := if tmin < 0 then tmax else tmin
      let point := ray.Point distance
      let normals : List Vec3 :=
        [a0, a0.Mul (-1), a1, a1.Mul (-1), a2, a2.Mul (-1)]
      let ts : List ℚ := [t0, t1, t2, t3, t4, t5]
      let normal :=
        (ts.zip normals).foldl
          (fun acc q => if cmp distance q.1 then q.2.Normalize s else acc) zero3
      ({ Point := point, Normal := normal, Distance := distance,
         Fail := RaycastFail.Unknown }, true)
  if cmp f0 0 then
    if -e0 - o.Size.x > 0 ∨ -e0 + o.Size.x < 0 then
      (failResult RaycastFail.OutsideBounds, false)
    else rest (nonzero f0) f1 f2
  else if cmp f1 0 then
    if -e1 - o.Size.y > 0 ∨ -e1 + o.Size.y < 0 then
      (failResult RaycastFail.OutsideBounds, false)
    else rest f0 (nonzero f1) f2
  else if cmp f2 0 then
    if -e2 - o.Size.z > 0 ∨ -e2 + o.Size.z < 0 then
      (failResult RaycastFail.OutsideBounds, false)
    else rest f0 f1 (nonzero f2)
  else rest f0 f1 f2

/-- The Box3 view of an OBB. -/
def OBB.toBox3 (s : ℚ → ℚ) (o : OBB) : Box3 :=
  ⟨o.Axes s, o.ProjectOntoAxis s⟩

/-- The eight corner points of an AABB as the specification describes
them (section 4.2): the eight combinations of position plus or minus
halfSize per component.  This definition follows the words of the
specification; it is the comparison point for the Corners slice the
source actually returns. -/
def AABB.specCorners (a : AABB) : List Point3 :=
  [⟨a.Position.x - a.Size.x, a.Position.y - a.Size.y, a.Position.z - a.Size.z⟩,
   ⟨a.Position.x - a.Size.x, a.Position.y - a.Size.y, a.Position.z + a.Size.z⟩,
   ⟨a.Position.x - a.Size.x, a.Position.y + a.Size.y, a.Position.z - a.Size.z⟩,
   ⟨a.Position.x - a.Size.x, a.Position.y + a.Size.y, a.Position.z + a.Size.z⟩,
   ⟨a.Position.x + a.Size.x, a.Position.y - a.Size.y, a.Position.z - a.Size.z⟩,
   ⟨a.Position.x + a.Size.x, a.Position.y - a.Size.y, a.Position.z + a.Size.z⟩,
   ⟨a.Position.x + a.Size.x, a.Position.y + a.Size.y, a.Position.z - a.Size.z⟩,
   ⟨a.Position.x + a.Size.x, a.Position.y + a.Size.y, a.Position.z + a.Size.z⟩]

/-- The axis projection the specification describes (section 4.2 and
claim C3): the interval whose Min and Max are the minimum and maximum of
the dot products of the axis with the eight corner points.  This
definition follows the words of the specification. -/
def AABB.specProjectOntoAxis (a : AABB) (axis : Vec3) : Interval :=
  projectList axis a.specCorners

/-- A provider square root valid at 1, the only point at which the
concrete evaluations below apply it (every normalized vector involved is
already a rational unit vector). -/
def sqrtOne : ℚ → ℚ := fun q => if q = 1 then 1 else 0

/-- A provider square root valid at the points 9 and 1 used by the
concrete sphere raycast below. -/
def sqrtNine : ℚ → ℚ := fun q => if q = 9 then 3 else 1

/-- A concrete OBB rotated about the z axis by the rational rotation with
cosine -7/25 and sine 24/25 (the unit quaternion (3/5, (0, 0, 4/5))), so
all of its axes are exact rational unit vectors. -/
def obbA : OBB := ⟨⟨0, 0, 0⟩, ⟨5, 1, 1⟩, ⟨3 / 5, ⟨0, 0, 4 / 5⟩⟩⟩

/-- A concrete OBB rotated about the x axis by the same rational
rotation (the unit quaternion (3/5, (4/5, 0, 0))), positioned so that
the second axis of obbA is its only separating axis from obbA. -/
def obbB : OBB := ⟨⟨-12 / 5, 49 / 250, 84 / 125⟩, ⟨1, 1, 1⟩, ⟨3 / 5, ⟨4 / 5, 0, 0⟩⟩⟩

set_option maxRecDepth 40000

/-- One projection step keeps Min below Max. -/
theorem projectStep_wf (axis : Vec3) (acc : Interval) (p : Point3)
    (h : acc.Min ≤ acc.Max) :
    (projectStep axis acc p).Min ≤ (projectStep axis acc p).Max := by
  show (if axis.Dot p < acc.Min then axis.Dot p else acc.Min) ≤
    (if axis.Dot p > acc.Max then axis.Dot p else acc.Max)
  split_ifs <;> linarith

/-- The corner-projection fold keeps Min below Max whenever the
accumulator starts that way. -/
theorem projectFold_wf (axis : Vec3) (l : List Point3) :
    ∀ acc : Interval, acc.Min ≤ acc.Max →
      (l.foldl (projectStep axis) acc).Min ≤ (l.foldl (projectStep axis) acc).Max := by
  induction l with
  | nil => intro acc h; simpa using h
  | cons p rest ih =>
    intro acc h
    simp only [List.foldl_cons]
    exact ih _ (projectStep_wf axis acc p h)

/-- Every projection interval the corner fold produces is well formed. -/
theorem projectList_wf (axis : Vec3) (l : List Point3) :
    (projectList axis l).Min ≤ (projectList axis l).Max := by
  cases l with
  | nil => simp [projectList]
  | cons v rest =>
    simpa [projectList] using projectFold_wf axis rest ⟨axis.Dot v, axis.Dot v⟩ le_rfl

/-- The AABB axis projection is a well-formed interval. -/
theorem aabb_proj_wf (a : AABB) (axis : Vec3) :
    (a.ProjectOntoAxis axis).Min ≤ (a.ProjectOntoAxis axis).Max :=
  projectList_wf axis a.Corners

/-- The OBB axis projection is a well-formed interval in both branches of
the identity fast path. -/
theorem obb_proj_wf (s : ℚ → ℚ) (o : OBB) (axis : Vec3) :
    (OBB.ProjectOntoAxis s o axis).Min ≤ (OBB.ProjectOntoAxis s o axis).Max := by
  unfold OBB.ProjectOntoAxis
  split
  · exact aabb_proj_wf _ axis
  · exact projectList_wf axis _

/-- A shape whose projection onto an axis is well formed overlaps itself
on that axis. -/
theorem overlapOnAxis_self (b : Box3) (axis : Vec3)
    (h : (b.ProjectOntoAxis axis).Min ≤ (b.ProjectOntoAxis axis).Max) :
    OverlapOnAxis b b axis = true := by
  simp only [OverlapOnAxis, Interval.Overlaps, Bool.and_eq_true, decide_eq_true_eq]
  exact ⟨h, h⟩

/-- The first IntersectsBox3 loop returns true when every axis test
passes. -/
theorem axisLoopB_self (a : Box3) (H : ∀ axis, OverlapOnAxis a a axis = true)
    (axesb : List Vec3) : ∀ n j, axisLoopB a a axesb n j = true := by
  intro n
  induction n with
  | zero => intro j; rfl
  | succ m ih => intro j; simp [axisLoopB, H, ih]

/-- The inner cross-product loop of IntersectsBox3 reports success when
every axis test passes. -/
theorem crossLoop_self (a : Box3) (H : ∀ axis, OverlapOnAxis a a axis = true)
    (axesa axesb : List Vec3) : ∀ n i, (crossLoop a a axesa axesb n i).1 = true := by
  intro n
  induction n with
  | zero => intro i; rfl
  | succ m ih =>
    intro i
    by_cases hi : i < axesb.length <;> simp [crossLoop, hi, H, ih]

/-- The outer IntersectsBox3 loop returns true when every axis test
passes. -/
theorem axisLoopA_self (a : Box3) (H : ∀ axis, OverlapOnAxis a a axis = true)
    (axesa axesb : List Vec3) : ∀ n i, axisLoopA a a axesa axesb n i = true := by
  intro n
  induction n with
  | zero => intro i; rfl
  | succ m ih =>
    intro i
    by_cases hi : i < axesa.length
    · have hc := crossLoop_self a H axesa axesb (axesb.length - i) i
      simp only [axisLoopA, if_pos hi, H, if_true, hc]
      exact ih _
    · simp [axisLoopA, hi]

/-- Any Box3 whose projections are all well formed intersects itself
under the source SAT test. -/
theorem intersectsBox3_self (a : Box3) (H : ∀ axis, OverlapOnAxis a a axis = true) :
    IntersectsBox3 a a = true := by
  simp only [IntersectsBox3]
  rw [axisLoopB_self a H]
  simp only [if_true]
  exact axisLoopA_self a H _ _ _ _

/-- C2: for the disjoint AABB pair a = {(10,0,0),(1,1,1)} and
b = {(13,0,0),(1,1,1)} the generic SAT test IntersectsBox3 returns true
while the direct per-axis min/max comparison IntersectsAABB returns
false, so the two tests do not agree on every AABB pair: the all-slots-
to-index-0 bug in AABB.Corners makes every projection interval include
0.  This refutes the claim that the two always return the same boolean. -/
theorem intersectsBox3_c2_disagrees_with_intersectsAABB :
    IntersectsBox3 (AABB.toBox3 ⟨⟨10, 0, 0⟩, ⟨1, 1, 1⟩⟩) (AABB.toBox3 ⟨⟨13, 0, 0⟩, ⟨1, 1, 1⟩⟩) = true ∧
    AABB.IntersectsAABB ⟨⟨10, 0, 0⟩, ⟨1, 1, 1⟩⟩ ⟨⟨13, 0, 0⟩, ⟨1, 1, 1⟩⟩ = false := by
  exact ⟨by with_unfolding_all rfl, by with_unfolding_all rfl⟩

/-- C3: for the AABB a = {(10,0,0),(1,1,1)} and the axis (1,0,0) the
source ProjectOntoAxis returns the interval [0, 11] while the interval
spanned by the dot products of the eight corner points described by the
specification is [9, 11]: AABB.Corners assigns all eight corners to
slot 0, so seven projected vertices are the zero vector.  This refutes
the claim that ProjectOntoAxis spans the eight corner projections. -/
theorem projectOntoAxis_c3_not_corner_span :
    AABB.ProjectOntoAxis ⟨⟨10, 0, 0⟩, ⟨1, 1, 1⟩⟩ ⟨1, 0, 0⟩ = ⟨0, 11⟩ ∧
    AABB.specProjectOntoAxis ⟨⟨10, 0, 0⟩, ⟨1, 1, 1⟩⟩ ⟨1, 0, 0⟩ = ⟨9, 11⟩ ∧
    AABB.ProjectOntoAxis ⟨⟨10, 0, 0⟩, ⟨1, 1, 1⟩⟩ ⟨1, 0, 0⟩ ≠
      AABB.specProjectOntoAxis ⟨⟨10, 0, 0⟩, ⟨1, 1, 1⟩⟩ ⟨1, 0, 0⟩ := by
  refine ⟨by with_unfolding_all rfl, by with_unfolding_all rfl, ?_⟩
  intro h
  have h1 : AABB.ProjectOntoAxis ⟨⟨10, 0, 0⟩, ⟨1, 1, 1⟩⟩ ⟨1, 0, 0⟩ = ⟨0, 11⟩ := by
    with_unfolding_all rfl
  have h2 : AABB.specProjectOntoAxis ⟨⟨10, 0, 0⟩, ⟨1, 1, 1⟩⟩ ⟨1, 0, 0⟩ = ⟨9, 11⟩ := by
    with_unfolding_all rfl
  rw [h1, h2] at h
  simp only [Interval.mk.injEq] at h
  norm_num at h

/-- C4: at the overlapping pair a = {(0,0,0),(2,2,2)},
b = {(1,1,1),(2,2,2)} the source MTVAABB returns (true, (-3,0,0)):
the sign comparison is inverted (a left of b yields sign -1, moving b
toward a), so translating b by the returned vector leaves the boxes
intersecting with overlap amount 2 on the x axis instead of separating
them.  This exhibits the failure of the idempotence test the
specification states for exactly this input. -/
theorem mtvAABB_c4_wrong_sign :
    AABB.MTVAABB ⟨⟨0, 0, 0⟩, ⟨2, 2, 2⟩⟩ ⟨⟨1, 1, 1⟩, ⟨2, 2, 2⟩⟩ = (true, ⟨-3, 0, 0⟩) ∧
    AABB.IntersectsAABB ⟨⟨0, 0, 0⟩, ⟨2, 2, 2⟩⟩
      ⟨(Vec3.mk 1 1 1).Add (AABB.MTVAABB ⟨⟨0, 0, 0⟩, ⟨2, 2, 2⟩⟩ ⟨⟨1, 1, 1⟩, ⟨2, 2, 2⟩⟩).2,
       ⟨2, 2, 2⟩⟩ = true ∧
    Interval.GetOverlap
      ⟨(AABB.Min ⟨⟨0, 0, 0⟩, ⟨2, 2, 2⟩⟩).x, (AABB.Max ⟨⟨0, 0, 0⟩, ⟨2, 2, 2⟩⟩).x⟩
      ⟨(AABB.Min ⟨(Vec3.mk 1 1 1).Add
          (AABB.MTVAABB ⟨⟨0, 0, 0⟩, ⟨2, 2, 2⟩⟩ ⟨⟨1, 1, 1⟩, ⟨2, 2, 2⟩⟩).2, ⟨2, 2, 2⟩⟩).x,
       (AABB.Max ⟨(Vec3.mk 1 1 1).Add
          (AABB.MTVAABB ⟨⟨0, 0, 0⟩, ⟨2, 2, 2⟩⟩ ⟨⟨1, 1, 1⟩, ⟨2, 2, 2⟩⟩).2, ⟨2, 2, 2⟩⟩).x⟩ = 2 := by
  refine ⟨by with_unfolding_all rfl, by with_unfolding_all rfl, by with_unfolding_all rfl⟩

/-- C5 counterexample: for the plane {normal (0,1,0), distance 0} the ray
{origin (0,-100,0), direction (0,1,0)} does NOT succeed: the source
rejects a ray whose direction has non-negative dot product with the
plane normal, so this call fails with PlaneFacesAwayFromRay; and the ray
{origin (0,-100,0), direction (0,-1,0)} fails with TargetBehindRayOrigin
rather than PlaneFacesAwayFromRay.  Both halves of the claim are
therefore false at these inputs. -/
theorem plane3Raycast_c5_claim_false :
    Plane3.Raycast sqrtOne ⟨⟨0, 1, 0⟩, 0⟩ ⟨⟨0, -100, 0⟩, ⟨0, 1, 0⟩⟩ =
      (failResult RaycastFail.PlaneFacesAwayFromRay, false) ∧
    Plane3.Raycast sqrtOne ⟨⟨0, 1, 0⟩, 0⟩ ⟨⟨0, -100, 0⟩, ⟨0, -1, 0⟩⟩ =
      (failResult RaycastFail.TargetBehindRayOrigin, false) := by
  exact ⟨by with_unfolding_all rfl, by with_unfolding_all rfl⟩

/-- C5 amended: for the plane {normal (0,1,0), distance 0} the upward ray
from (0,-100,0) fails with PlaneFacesAwayFromRay, the downward ray from
(0,-100,0) fails with TargetBehindRayOrigin, and the downward ray from
(0,100,0) (the one approaching the front face) succeeds with distance
100, hit point (0,0,0) and normal (0,1,0), matching the repository
tests. -/
theorem plane3Raycast_c5_amended :
    Plane3.Raycast sqrtOne ⟨⟨0, 1, 0⟩, 0⟩ ⟨⟨0, -100, 0⟩, ⟨0, 1, 0⟩⟩ =
      (failResult RaycastFail.PlaneFacesAwayFromRay, false) ∧
    Plane3.Raycast sqrtOne ⟨⟨0, 1, 0⟩, 0⟩ ⟨⟨0, -100, 0⟩, ⟨0, -1, 0⟩⟩ =
      (failResult RaycastFail.TargetBehindRayOrigin, false) ∧
    Plane3.Raycast sqrtOne ⟨⟨0, 1, 0⟩, 0⟩ ⟨⟨0, 100, 0⟩, ⟨0, -1, 0⟩⟩ =
      ({ Point := ⟨0, 0, 0⟩, Normal := ⟨0, 1, 0⟩, Distance := 100,
         Fail := RaycastFail.Unknown }, true) := by
  refine ⟨by with_unfolding_all rfl, by with_unfolding_all rfl, by with_unfolding_all rfl⟩

/-- C1: at the rotated boxes obbA and obbB the source IntersectsBox3
returns true even though the second face-normal axis of obbA is one of
the 15 candidate separating axes and the two projections fail to overlap
on it: the inner loop of IntersectsBox3 drives its condition and
increment with the outer index i while j stays 0, so only 7 of the 15
axes are ever tested.  This refutes the claim that the test returns
false whenever some of the 15 axes separates the boxes. -/
theorem intersectsBox3_c1_missed_axis :
    IntersectsBox3 (OBB.toBox3 sqrtOne obbA) (OBB.toBox3 sqrtOne obbB) = true ∧
    (OBB.Axes sqrtOne obbA).getD 1 zero3 ∈
      satAxes15 (OBB.toBox3 sqrtOne obbA) (OBB.toBox3 sqrtOne obbB) ∧
    OverlapOnAxis (OBB.toBox3 sqrtOne obbA) (OBB.toBox3 sqrtOne obbB)
      ((OBB.Axes sqrtOne obbA).getD 1 zero3) = false := by
  refine ⟨by with_unfolding_all rfl, by with_unfolding_all decide, by with_unfolding_all rfl⟩

/-- C7: the SAT test of the source is not symmetric: at the boxes obbA
and obbB it returns true for (obbA, obbB) but false for (obbB, obbA),
because the buggy inner loop tests different axis sets in the two
orders (only the first axis of the first argument is crossed, and its
remaining face axes are skipped).  This refutes the claim that
IntersectsBox3 agrees with its own transpose on every pair. -/
theorem intersectsBox3_c7_asymmetric :
    IntersectsBox3 (OBB.toBox3 sqrtOne obbA) (OBB.toBox3 sqrtOne obbB) = true ∧
    IntersectsBox3 (OBB.toBox3 sqrtOne obbB) (OBB.toBox3 sqrtOne obbA) = false := by
  exact ⟨by with_unfolding_all rfl, by with_unfolding_all rfl⟩

/-- C6 counterexample: the identity-orientation OBB {(0,0,0),(2,2,2)} and
the AABB with the same position and half size do NOT return an identical
(result, hit) pair for every ray: for the ray {origin (5,0,-10),
direction (0,0,1)} the OBB raycast (which has no identity fast path)
takes its near-parallel-axis early exit and fails with OutsideBounds,
while the AABB raycast divides by the nonzero substitute and fails with
TargetBehindRayOrigin. -/
theorem obbRaycast_c6_raycast_differs :
    OBB.Raycast sqrtOne ⟨⟨0, 0, 0⟩, ⟨2, 2, 2⟩, QuatIdent⟩ ⟨⟨5, 0, -10⟩, ⟨0, 0, 1⟩⟩ =
      (failResult RaycastFail.OutsideBounds, false) ∧
    AABB.Raycast ⟨⟨0, 0, 0⟩, ⟨2, 2, 2⟩⟩ ⟨⟨5, 0, -10⟩, ⟨0, 0, 1⟩⟩ =
      (failResult RaycastFail.TargetBehindRayOrigin, false) ∧
    OBB.Raycast sqrtOne ⟨⟨0, 0, 0⟩, ⟨2, 2, 2⟩, QuatIdent⟩ ⟨⟨5, 0, -10⟩, ⟨0, 0, 1⟩⟩ ≠
      AABB.Raycast ⟨⟨0, 0, 0⟩, ⟨2, 2, 2⟩⟩ ⟨⟨5, 0, -10⟩, ⟨0, 0, 1⟩⟩ := by
  have h1 : OBB.Raycast sqrtOne ⟨⟨0, 0, 0⟩, ⟨2, 2, 2⟩, QuatIdent⟩ ⟨⟨5, 0, -10⟩, ⟨0, 0, 1⟩⟩ =
      (failResult RaycastFail.OutsideBounds, false) := by with_unfolding_all rfl
  have h2 : AABB.Raycast ⟨⟨0, 0, 0⟩, ⟨2, 2, 2⟩⟩ ⟨⟨5, 0, -10⟩, ⟨0, 0, 1⟩⟩ =
      (failResult RaycastFail.TargetBehindRayOrigin, false) := by with_unfolding_all rfl
  refine ⟨h1, h2, ?_⟩
  rw [h1, h2]
  simp [failResult]

/-- C6 amended: for every OBB whose orientation is the identity
quaternion and the AABB with the same position and half size, Axes,
Corners, Normals, ProjectOntoAxis and ContainsPoint3 return identical
results for every input (each method takes the identity fast path that
delegates to the AABB); Raycast, which has no such fast path, is not
identical for every ray. -/
theorem obb_c6_identity_equiv (s : ℚ → ℚ) (o : OBB)
    (h : o.Orientation = QuatIdent) :
    OBB.Axes s o = AABB.Axes ⟨o.Position, o.Size⟩ ∧
    OBB.Corners o = AABB.Corners ⟨o.Position, o.Size⟩ ∧
    OBB.Normals s o = AABB.Normals ⟨o.Position, o.Size⟩ ∧
    (∀ axis, OBB.ProjectOntoAxis s o axis = AABB.ProjectOntoAxis ⟨o.Position, o.Size⟩ axis) ∧
    (∀ pt, OBB.ContainsPoint3 s o pt = AABB.ContainsPoint3 ⟨o.Position, o.Size⟩ pt) := by
  refine ⟨?_, ?_, ?_, fun axis => ?_, fun pt => ?_⟩ <;>
    simp [OBB.Axes, OBB.Corners, OBB.Normals, OBB.ProjectOntoAxis, OBB.ContainsPoint3, h]

/-- C6 witness: the amended equivalence applied to the concrete
identity-orientation OBB {(0,0,0),(2,2,2)}, with the projection and
containment conjuncts instantiated at the axis (1,0,0) and the point
(1,1,1). -/
theorem obb_c6_identity_equiv_witness :
    (OBB.mk ⟨0, 0, 0⟩ ⟨2, 2, 2⟩ QuatIdent).Orientation = QuatIdent ∧
    OBB.Axes sqrtOne ⟨⟨0, 0, 0⟩, ⟨2, 2, 2⟩, QuatIdent⟩ =
      AABB.Axes ⟨⟨0, 0, 0⟩, ⟨2, 2, 2⟩⟩ ∧
    OBB.Corners ⟨⟨0, 0, 0⟩, ⟨2, 2, 2⟩, QuatIdent⟩ =
      AABB.Corners ⟨⟨0, 0, 0⟩, ⟨2, 2, 2⟩⟩ ∧
    OBB.ProjectOntoAxis sqrtOne ⟨⟨0, 0, 0⟩, ⟨2, 2, 2⟩, QuatIdent⟩ ⟨1, 0, 0⟩ =
      AABB.ProjectOntoAxis ⟨⟨0, 0, 0⟩, ⟨2, 2, 2⟩⟩ ⟨1, 0, 0⟩ ∧
    OBB.ContainsPoint3 sqrtOne ⟨⟨0, 0, 0⟩, ⟨2, 2, 2⟩, QuatIdent⟩ ⟨1, 1, 1⟩ =
      AABB.ContainsPoint3 ⟨⟨0, 0, 0⟩, ⟨2, 2, 2⟩⟩ ⟨1, 1, 1⟩ := by
  refine ⟨rfl, ?_, ?_, ?_, ?_⟩
  · exact (obb_c6_identity_equiv sqrtOne _ rfl).1
  · exact (obb_c6_identity_equiv sqrtOne _ rfl).2.1
  · exact (obb_c6_identity_equiv sqrtOne _ rfl).2.2.2.1 ⟨1, 0, 0⟩
  · exact (obb_c6_identity_equiv sqrtOne _ rfl).2.2.2.2 ⟨1, 1, 1⟩

/-- C8: every AABB and every OBB (under any provider square root)
intersects itself under the source SAT test: both shapes project onto
any axis as an interval with Min below Max, every interval overlaps
itself, so no axis test of IntersectsBox3 can fail. -/
theorem intersectsBox3_c8_self_intersects :
    (∀ a : AABB, IntersectsBox3 a.toBox3 a.toBox3 = true) ∧
    (∀ (s : ℚ → ℚ) (o : OBB), IntersectsBox3 (OBB.toBox3 s o) (OBB.toBox3 s o) = true) := by
  constructor
  · intro a
    apply intersectsBox3_self
    intro axis
    exact overlapOnAxis_self _ axis (aabb_proj_wf a axis)
  · intro s o
    apply intersectsBox3_self
    intro axis
    exact overlapOnAxis_self _ axis (obb_proj_wf s o axis)

/-- C9: the AABB raycast fails with TargetBehindRayOrigin exactly when
the slab exit tmax is negative, fails with OutsideBounds exactly when
tmax is non-negative and the slab entry tmin exceeds tmax, and in
particular the ray {origin (0,0,5), direction (0,0,1)} pointing away
from the box {(0,0,0),(2,2,2)} fails with TargetBehindRayOrigin. -/
theorem aabbRaycast_c9_failure_taxonomy :
    (∀ (a : AABB) (ray : Ray3),
      (AABB.Raycast a ray = (failResult RaycastFail.TargetBehindRayOrigin, false) ↔
        AABB.raycastTmax a ray < 0) ∧
      (AABB.Raycast a ray = (failResult RaycastFail.OutsideBounds, false) ↔
        (0 ≤ AABB.raycastTmax a ray ∧ AABB.raycastTmax a ray < AABB.raycastTmin a ray))) ∧
    AABB.Raycast ⟨⟨0, 0, 0⟩, ⟨2, 2, 2⟩⟩ ⟨⟨0, 0, 5⟩, ⟨0, 0, 1⟩⟩ =
      (failResult RaycastFail.TargetBehindRayOrigin, false) := by
  constructor
  · intro a ray
    simp only [AABB.Raycast]
    split_ifs with h1 h2 h3
    · constructor
      · simp only [iff_true_intro h1, iff_true]
      · constructor
        · intro h
          simp [failResult, Prod.ext_iff, RaycastResult.mk.injEq] at h
        · intro h
          exact absurd h1 (not_lt.mpr h.1)
    · constructor
      · constructor
        · intro h
          simp [failResult, Prod.ext_iff, RaycastResult.mk.injEq] at h
        · intro h
          exact absurd h h1
      · constructor
        · intro _
          exact ⟨not_lt.mp h1, h2⟩
        · intro _
          rfl
    · constructor
      · constructor
        · intro h
          simp [Prod.ext_iff] at h
        · intro h
          exact absurd h h1
      · constructor
        · intro h
          simp [Prod.ext_iff] at h
        · intro h
          exact absurd h.2 (not_lt.mpr (not_lt.mp h2))
    · constructor
      · constructor
        · intro h
          simp [Prod.ext_iff] at h
        · intro h
          exact absurd h h1
      · constructor
        · intro h
          simp [Prod.ext_iff] at h
        · intro h
          exact absurd h.2 (not_lt.mpr (not_lt.mp h2))
  · with_unfolding_all rfl

/-- C10: the sphere raycast never reports TargetBehindRayOrigin, and
whenever the line of the ray meets the sphere (the discriminant check
passes), the origin is not inside the sphere and the nearest root is
negative, it still returns hit = true whose Distance is that negative
root and whose hit point lies behind the ray origin. -/
theorem sphereRaycast_c10_no_behind_failure :
    (∀ (s : ℚ → ℚ) (sp : Sphere) (ray : Ray3),
      ((Sphere.Raycast s sp ray).1).Fail ≠ RaycastFail.TargetBehindRayOrigin) ∧
    (∀ (s : ℚ → ℚ) (sp : Sphere) (ray : Ray3),
      0 ≤ sp.Radius * sp.Radius - sp.rayBSq ray →
      ¬((sp.rayE ray).Dot (sp.rayE ray) < sp.Radius * sp.Radius) →
      sp.rayA ray - s (fabs (sp.Radius * sp.Radius - sp.rayBSq ray)) < 0 →
      ray.Direction.Dot ray.Direction = 1 →
      (Sphere.Raycast s sp ray).2 = true ∧
      ((Sphere.Raycast s sp ray).1).Distance =
        sp.rayA ray - s (fabs (sp.Radius * sp.Radius - sp.rayBSq ray)) ∧
      ((Sphere.Raycast s sp ray).1).Distance < 0 ∧
      ((((Sphere.Raycast s sp ray).1).Point.Sub ray.Origin).Dot ray.Direction) < 0) := by
  constructor
  · intro s sp ray
    simp only [Sphere.Raycast]
    split_ifs <;> simp [failResult]
  · intro s sp ray h1 h2 h3 hdir
    have hraycast : Sphere.Raycast s sp ray =
        ({ Point := ray.Origin.Add (ray.Direction.Mul
             (sp.rayA ray - s (fabs (sp.Radius * sp.Radius - sp.rayBSq ray)))),
           Normal := ((ray.Origin.Add (ray.Direction.Mul
             (sp.rayA ray - s (fabs (sp.Radius * sp.Radius - sp.rayBSq ray))))).Sub
               sp.Position).Normalize s,
           Distance := sp.rayA ray - s (fabs (sp.Radius * sp.Radius - sp.rayBSq ray)),
           Fail := RaycastFail.Unknown }, true) := by
      simp only [Sphere.Raycast, if_neg (not_lt.mpr h1), if_neg h2]
    refine ⟨by rw [hraycast], by rw [hraycast], by rw [hraycast]; exact h3, ?_⟩
    rw [hraycast]
    have hsub : ∀ (o d : Vec3) (t : ℚ), ((o.Add (d.Mul t)).Sub o).Dot d = t * (d.Dot d) := by
      intro o d t
      simp only [Vec3.Add, Vec3.Sub, Vec3.Mul, Vec3.Dot]
      ring
    simp only [hsub, hdir, mul_one]
    exact h3

/-- C10 witness: the sphere {(0,0,-5), 3} lies entirely behind the ray
from the origin along (0,0,1); with the square root of 9 given exactly,
the raycast returns hit = true with Distance -8 and a hit point behind
the origin. -/
theorem sphereRaycast_c10_no_behind_failure_witness :
    0 ≤ (Sphere.mk ⟨0, 0, -5⟩ 3).Radius * (Sphere.mk ⟨0, 0, -5⟩ 3).Radius -
      Sphere.rayBSq ⟨⟨0, 0, -5⟩, 3⟩ ⟨⟨0, 0, 0⟩, ⟨0, 0, 1⟩⟩ ∧
    ¬((Sphere.rayE ⟨⟨0, 0, -5⟩, 3⟩ ⟨⟨0, 0, 0⟩, ⟨0, 0, 1⟩⟩).Dot
        (Sphere.rayE ⟨⟨0, 0, -5⟩, 3⟩ ⟨⟨0, 0, 0⟩, ⟨0, 0, 1⟩⟩) <
      (Sphere.mk ⟨0, 0, -5⟩ 3).Radius * (Sphere.mk ⟨0, 0, -5⟩ 3).Radius) ∧
    (Sphere.Raycast sqrtNine ⟨⟨0, 0, -5⟩, 3⟩ ⟨⟨0, 0, 0⟩, ⟨0, 0, 1⟩⟩).2 = true ∧
    ((Sphere.Raycast sqrtNine ⟨⟨0, 0, -5⟩, 3⟩ ⟨⟨0, 0, 0⟩, ⟨0, 0, 1⟩⟩).1).Distance < 0 := by
  have h1 : (0:ℚ) ≤ (Sphere.mk ⟨0, 0, -5⟩ 3).Radius * (Sphere.mk ⟨0, 0, -5⟩ 3).Radius -
      Sphere.rayBSq ⟨⟨0, 0, -5⟩, 3⟩ ⟨⟨0, 0, 0⟩, ⟨0, 0, 1⟩⟩ := by
    with_unfolding_all decide
  have h2 : ¬((Sphere.rayE ⟨⟨0, 0, -5⟩, 3⟩ ⟨⟨0, 0, 0⟩, ⟨0, 0, 1⟩⟩).Dot
      (Sphere.rayE ⟨⟨0, 0, -5⟩, 3⟩ ⟨⟨0, 0, 0⟩, ⟨0, 0, 1⟩⟩) <
      (Sphere.mk ⟨0, 0, -5⟩ 3).Radius * (Sphere.mk ⟨0, 0, -5⟩ 3).Radius) := by
    with_unfolding_all decide
  have h3 : Sphere.rayA ⟨⟨0, 0, -5⟩, 3⟩ ⟨⟨0, 0, 0⟩, ⟨0, 0, 1⟩⟩ -
      sqrtNine (fabs ((Sphere.mk ⟨0, 0, -5⟩ 3).Radius * (Sphere.mk ⟨0, 0, -5⟩ 3).Radius -
        Sphere.rayBSq ⟨⟨0, 0, -5⟩, 3⟩ ⟨⟨0, 0, 0⟩, ⟨0, 0, 1⟩⟩)) < 0 := by
    with_unfolding_all decide
  have hdir : (Ray3.mk ⟨0, 0, 0⟩ ⟨0, 0, 1⟩).Direction.Dot
      (Ray3.mk ⟨0, 0, 0⟩ ⟨0, 0, 1⟩).Direction = 1 := by
    with_unfolding_all decide
  have hmain := sphereRaycast_c10_no_behind_failure.2 sqrtNine
    ⟨⟨0, 0, -5⟩, 3⟩ ⟨⟨0, 0, 0⟩, ⟨0, 0, 1⟩⟩ h1 h2 h3 hdir
  exact ⟨h1, h2, hmain.1, hmain.2.2.1⟩

end Geom
